import Mathlib

/-!
Verification of the API-client / session layer of the chat-pacs-hub client.

The TypeScript sources are shallowly embedded:
- JavaScript runtime values (parsed JSON payloads) are the inductive `Jval`;
  `undefined` is represented by `Option.none` at property-access sites.
- The platform primitive `JSON.parse` is an oracle parameter
  `parse : String -> Option Jval` (`none` models a thrown SyntaxError).
- Thrown exceptions are `Except JsError`; a `try/catch` block is the
  combinator `jsTry`.
- `localStorage` is the record `Store` (both keys hold strings, as the
  platform coerces stored values to strings).
- Embedded variants: namespace `ApiTs` is src/lib/api.ts (requestApi based),
  namespace `LegacyApi` is the earlier fetch-based service file, namespace
  `AuthCtx` is the AuthContext login orchestration and `AuthCtxHardened`
  its hardened revision.
-/

/-- A JavaScript runtime value, as produced by parsing JSON. -/
inductive Jval where
  | jnull : Jval
  | jbool : Bool → Jval
  | jnum : Int → Jval
  | jstr : String → Jval
  | jarr : List Jval → Jval
  | jobj : List (String × Jval) → Jval

/-- First-match property lookup in an object literal. -/
def getField : List (String × Jval) → String → Option Jval
  | [], _ => none
  | (k, v) :: fs, key => if k = key then some v else getField fs key

/-- Optional-chaining property access `v?.key`: `none` is `undefined`. -/
def Jval.get : Jval → String → Option Jval
  | .jobj fs, key => getField fs key
  | _, _ => none

/-- Two-step optional-chaining access `v?.k1?.k2`. -/
def Jval.get2 (v : Jval) (k1 k2 : String) : Option Jval :=
  (v.get k1).bind (fun w => w.get k2)

/-- JavaScript truthiness of a value. -/
def Jval.truthy : Jval → Bool
  | .jnull => false
  | .jbool b => b
  | .jnum n => n ≠ 0
  | .jstr s => s ≠ ""
  | .jarr _ => true
  | .jobj _ => true

/-- Truthiness of a possibly-undefined value (`undefined` is falsy). -/
def truthyOpt : Option Jval → Bool
  | some v => v.truthy
  | none => false

/-- Strict-equality test of a property against a string literal
(`v?.key === s` is true only when the property is the string `s`). -/
def propIsStr (v : Jval) (key s : String) : Bool :=
  match v.get key with
  | some (.jstr t) => t = s
  | _ => false

mutual

/-- JavaScript string coercion `String(v)` (arrays join their elements
with a comma; plain objects display as `[object Object]`). -/
def jsToString : Jval → String
  | .jnull => "null"
  | .jbool true => "true"
  | .jbool false => "false"
  | .jnum n => toString n
  | .jstr s => s
  | .jarr xs => String.intercalate ("," ) (jsToStringList xs)
  | .jobj _ => "[object Object]"

/-- Pointwise string coercion of a list of values. -/
def jsToStringList : List Jval → List String
  | [] => []
  | x :: xs => jsToString x :: jsToStringList xs

end

mutual

/-- The platform primitive `JSON.stringify` (string escaping elided; no
claim depends on the exact rendering). -/
def jsonStringify : Jval → String
  | .jnull => "null"
  | .jbool true => "true"
  | .jbool false => "false"
  | .jnum n => toString n
  | .jstr s => "\"" ++ s ++ "\""
  | .jarr xs => "[" ++ String.intercalate ("," ) (jsonStringifyList xs) ++ "]"
  | .jobj fs => "\x7b" ++ String.intercalate ("," ) (jsonStringifyFields fs) ++ "\x7d"

/-- `JSON.stringify` on array elements. -/
def jsonStringifyList : List Jval → List String
  | [] => []
  | x :: xs => jsonStringify x :: jsonStringifyList xs

/-- `JSON.stringify` on object fields. -/
def jsonStringifyFields : List (String × Jval) → List String
  | [] => []
  | (k, v) :: fs => ("\"" ++ k ++ "\":" ++ jsonStringify v) :: jsonStringifyFields fs

end

/-- A thrown JavaScript exception: an object carrying a `name` property,
or any other thrown value. -/
inductive JsError where
  | withName : String → JsError
  | otherValue : JsError

/-- The error a timeout-triggered `AbortController.abort()` makes the
in-flight `fetch` reject with. -/
def abortError : JsError := .withName ("AbortError")

/-- The `SyntaxError` thrown by `JSON.parse` on invalid input. -/
def jsSyntaxError : JsError := .withName ("SyntaxError")

/-- The `TypeError` thrown by calling a missing method. -/
def jsTypeError : JsError := .withName ("TypeError")

/-- src/lib/api.ts `isAbortError`: the thrown value is an object whose
`name` property is the string `AbortError`. -/
def isAbortError : JsError → Bool
  | .withName n => n = "AbortError"
  | .otherValue => false

/-- A JavaScript `try/catch` block: run the body; on a thrown error,
produce the handler's result instead. -/
def jsTry {α : Type} (body : Except JsError α) (handler : JsError → α) : α :=
  match body with
  | .ok a => a
  | .error e => handler e

/-- The durable client-side store (`localStorage`): the `auth_token` and
`current_user` keys, each holding a string when present. -/
structure Store where
  auth_token : Option String
  current_user : Option String

/-- The empty store. -/
def store0 : Store := Store.mk none none

/-- An HTTP response: status code and body text. -/
structure HttpResponse where
  status : Nat
  body : String

/-- The settled result of an awaited `fetch`: a response, or a thrown
transport error. -/
abbrev HttpResult := Except JsError HttpResponse

/-- `response.ok`: status in the 200-299 range. -/
def respOk (status : Nat) : Bool := 200 ≤ status && status < 300

/-- src/lib/api.ts `DEFAULT_TIMEOUT_MS`. -/
def DEFAULT_TIMEOUT_MS : Nat := 20000

/-- How the underlying transport would behave if left alone: settle
(resolve or reject) after some delay, or never settle. -/
inductive TransportBehavior where
  | resolves : Nat → HttpResponse → TransportBehavior
  | rejects : Nat → JsError → TransportBehavior
  | hangs : TransportBehavior

/-- Observable outcome of `fetchWithTimeout`: the settled result, whether
the abort controller fired, and whether the timeout timer was cleared. -/
structure FetchOutcome where
  result : HttpResult
  aborted : Bool
  timerCleared : Bool

/-- src/lib/api.ts `fetchWithTimeout`: starts a timer that aborts the
in-flight call after `timeoutMs`; if the transport settles strictly
before the deadline the timer never fires, otherwise the abort wins and
the call rejects with `AbortError`. The timer is cleared in a `finally`
block on every path. -/
def fetchWithTimeout (timeoutMs : Nat) (b : TransportBehavior) : FetchOutcome :=
  match b with
  | .resolves d resp =>
      if d < timeoutMs then FetchOutcome.mk (.ok resp) false true
      else FetchOutcome.mk (.error abortError) true true
  | .rejects d e =>
      if d < timeoutMs then FetchOutcome.mk (.error e) false true
      else FetchOutcome.mk (.error abortError) true true
  | .hangs => FetchOutcome.mk (.error abortError) true true

/-- src/lib/api.ts `networkErrorMessage`. -/
def networkErrorMessage (e : JsError) : String :=
  if isAbortError e then "Request timed out. Please try again."
  else "Network error. Please try again."

/-- The envelope src/lib/api.ts `safeReadJson` synthesizes for a
non-empty body that fails to parse as JSON. -/
def nonJsonEnvelope (text : String) : Jval :=
  .jobj
    [ (("status"), .jstr ("error"))
    , (("message"), .jstr text)
    , (("data"), .jnull)
    , (("error"), .jobj [(("code"), .jstr ("NON_JSON_RESPONSE")), (("details"), .jnull)]) ]

/-- src/lib/api.ts `safeReadJson`: read the body as text; an empty body
yields `null`; a body that fails to parse yields the synthesized
`NON_JSON_RESPONSE` envelope instead of a thrown parse error. -/
def safeReadJson (body : String) (parse : String → Option Jval) : Jval :=
  if body = "" then .jnull
  else match parse body with
    | some j => j
    | none => nonJsonEnvelope body

/-- src/lib/api.ts `requestApi`: await the transport (rethrowing a
transport error to the caller's catch) and read the body via
`safeReadJson`. -/
def requestApi (r : HttpResult) (parse : String → Option Jval) : Except JsError Jval := do
  let resp ← r
  pure (safeReadJson resp.body parse)

/-- JavaScript `a || b` on strings: the empty string is falsy. -/
def jsOr (a b : String) : String := if a = "" then b else a

/-- `.map(d => d?.msg).filter(Boolean).join(', ')` over a validation
detail array: the present, truthy `msg` values, string-coerced and
comma-joined. -/
def collectMsgs (ds : List Jval) : String :=
  String.intercalate (", ")
    (jsToStringList ((ds.filterMap (fun d => d.get ("msg"))).filter Jval.truthy))

/-- `p?.message || dflt`: the string-coerced `message` property when
truthy, otherwise the fallback. -/
def messageOr (p : Jval) (dflt : String) : String :=
  match p.get ("message") with
  | some v => if v.truthy then jsToString v else dflt
  | none => dflt

/-- src/lib/api.ts `getErrorMessage`: collect `msg` entries from
`error.details` when it is an array (falling back to `message`), else
from the FastAPI `detail` array, else use `message`, with fixed
defaults. -/
def getErrorMessage (p : Jval) : String :=
  match (p.get ("error")).bind (fun e => e.get ("details")) with
  | some (.jarr ds) => jsOr (collectMsgs ds) (messageOr p ("An error occurred"))
  | _ =>
    match p.get ("detail") with
    | some (.jarr ds) => jsOr (collectMsgs ds) ("Validation failed")
    | _ => messageOr p ("An error occurred")

/-- Result of a login call: `{ token?, error? }`. -/
structure LoginRes where
  token : Option Jval
  error : Option String

/-- Result of a signup / me call: `{ user?, error? }`. -/
structure UserRes where
  user : Option Jval
  error : Option String

/-- Result of a chat send: `{ response?, error? }`. -/
structure ChatRes where
  response : Option Jval
  error : Option String

/-- Result of a chat-list call: `{ chats?, error? }`. -/
structure ChatsRes where
  chats : Option (List Jval)
  error : Option String

/-- Result of a PACS list call: `{ configs?, error? }`. -/
structure ConfigsRes where
  configs : Option Jval
  error : Option String

/-- Result of a PACS create/update call: `{ config?, error? }`. -/
structure ConfigRes where
  config : Option Jval
  error : Option String

/-- Result of a PACS delete call: `{ success, error? }`. -/
structure DeleteRes where
  success : Bool
  error : Option String

namespace ApiTs

/-- src/lib/api.ts `authAPI.login`: on a success envelope with a truthy
`data.access_token`, store the token and return it; otherwise return the
extracted error message; a thrown transport error becomes
`networkErrorMessage`. -/
def login (st : Store) (r : HttpResult) (parse : String → Option Jval) :
    Store × LoginRes :=
  jsTry (do
      let payload ← requestApi r parse
      match payload.get2 ("data") ("access_token") with
      | some tok =>
          if propIsStr payload ("status") ("success") && tok.truthy then
            pure ({ st with auth_token := some (jsToString tok) },
                  LoginRes.mk (some tok) none)
          else
            pure (st, LoginRes.mk none (some (getErrorMessage payload)))
      | none => pure (st, LoginRes.mk none (some (getErrorMessage payload))))
    (fun e => (st, LoginRes.mk none (some (networkErrorMessage e))))

/-- src/lib/api.ts `authAPI.signup`: on a success envelope with truthy
`data.id` and `data.username`, return the built user (no store write);
otherwise the extracted error message. -/
def signup (st : Store) (r : HttpResult) (parse : String → Option Jval) :
    Store × UserRes :=
  jsTry (do
      let payload ← requestApi r parse
      match payload.get2 ("data") ("id"), payload.get2 ("data") ("username") with
      | some i, some u =>
          if propIsStr payload ("status") ("success") && i.truthy && u.truthy then
            pure (st, UserRes.mk (some (.jobj [(("id"), i), (("username"), u)])) none)
          else
            pure (st, UserRes.mk none (some (getErrorMessage payload)))
      | _, _ => pure (st, UserRes.mk none (some (getErrorMessage payload))))
    (fun e => (st, UserRes.mk none (some (networkErrorMessage e))))

/-- src/lib/api.ts `authAPI.me`: on a success envelope with truthy
`data`, cache the stringified user and return it; otherwise the
extracted error message with a fixed fallback. The HTTP status code is
never inspected. -/
def me (st : Store) (r : HttpResult) (parse : String → Option Jval) :
    Store × UserRes :=
  jsTry (do
      let payload ← requestApi r parse
      match payload.get ("data") with
      | some d =>
          if propIsStr payload ("status") ("success") && d.truthy then
            pure ({ st with current_user := some (jsonStringify d) },
                  UserRes.mk (some d) none)
          else
            pure (st, UserRes.mk none
                    (some (jsOr (getErrorMessage payload) ("Failed to get user info"))))
      | none =>
          pure (st, UserRes.mk none
                  (some (jsOr (getErrorMessage payload) ("Failed to get user info")))))
    (fun e => (st, UserRes.mk none (some (networkErrorMessage e))))

/-- src/lib/api.ts `authAPI.getCurrentUser`: read the cached user text
and `JSON.parse` it with no try/catch — a stored value that fails to
parse makes the call throw. -/
def getCurrentUser (st : Store) (parse : String → Option Jval) :
    Except JsError (Option Jval) :=
  match st.current_user with
  | none => .ok none
  | some s =>
      if s = "" then .ok none
      else match parse s with
        | some j => .ok (some j)
        | none => .error jsSyntaxError

/-- src/lib/api.ts `authAPI.getToken`: plain store read, cannot throw. -/
def getToken (st : Store) : Except JsError (Option String) :=
  .ok st.auth_token

/-- src/lib/api.ts `authAPI.logout`: unconditionally remove both keys. -/
def logout (_ : Store) : Store := Store.mk none none

/-- src/lib/api.ts `chatAPI.sendMessage`: on a success envelope with a
truthy `data.response`, return it; otherwise the extracted error message
with a fixed fallback. No store access, no HTTP-status inspection. -/
def sendMessage (st : Store) (r : HttpResult) (parse : String → Option Jval) :
    Store × ChatRes :=
  jsTry (do
      let payload ← requestApi r parse
      if propIsStr payload ("status") ("success") &&
          truthyOpt (payload.get2 ("data") ("response")) then
        pure (st, ChatRes.mk (payload.get2 ("data") ("response")) none)
      else
        pure (st, ChatRes.mk none
                (some (jsOr (getErrorMessage payload) ("Failed to get response")))))
    (fun e => (st, ChatRes.mk none (some (networkErrorMessage e))))

/-- src/lib/api.ts `pacsAPI.getConfigurations`: on a success envelope
with truthy `data`, return it as the config list; otherwise the
extracted error message with a fixed fallback. No store access. -/
def getConfigurations (st : Store) (r : HttpResult) (parse : String → Option Jval) :
    Store × ConfigsRes :=
  jsTry (do
      let payload ← requestApi r parse
      if propIsStr payload ("status") ("success") && truthyOpt (payload.get ("data")) then
        pure (st, ConfigsRes.mk (payload.get ("data")) none)
      else
        pure (st, ConfigsRes.mk none
                (some (jsOr (getErrorMessage payload) ("Failed to load configurations")))))
    (fun e => (st, ConfigsRes.mk none (some (networkErrorMessage e))))

/-- src/lib/api.ts `pacsAPI.createConfiguration`: same envelope mapping
with the create fallback message. -/
def createConfiguration (st : Store) (r : HttpResult) (parse : String → Option Jval) :
    Store × ConfigRes :=
  jsTry (do
      let payload ← requestApi r parse
      if propIsStr payload ("status") ("success") && truthyOpt (payload.get ("data")) then
        pure (st, ConfigRes.mk (payload.get ("data")) none)
      else
        pure (st, ConfigRes.mk none
                (some (jsOr (getErrorMessage payload) ("Failed to create configuration")))))
    (fun e => (st, ConfigRes.mk none (some (networkErrorMessage e))))

/-- src/lib/api.ts `pacsAPI.updateConfiguration`: same envelope mapping
with the update fallback message. -/
def updateConfiguration (st : Store) (r : HttpResult) (parse : String → Option Jval) :
    Store × ConfigRes :=
  jsTry (do
      let payload ← requestApi r parse
      if propIsStr payload ("status") ("success") && truthyOpt (payload.get ("data")) then
        pure (st, ConfigRes.mk (payload.get ("data")) none)
      else
        pure (st, ConfigRes.mk none
                (some (jsOr (getErrorMessage payload) ("Failed to update configuration")))))
    (fun e => (st, ConfigRes.mk none (some (networkErrorMessage e))))

/-- src/lib/api.ts `pacsAPI.deleteConfiguration`: success is the envelope
status alone; otherwise failure with the extracted error message. -/
def deleteConfiguration (st : Store) (r : HttpResult) (parse : String → Option Jval) :
    Store × DeleteRes :=
  jsTry (do
      let payload ← requestApi r parse
      if propIsStr payload ("status") ("success") then
        pure (st, DeleteRes.mk true none)
      else
        pure (st, DeleteRes.mk false
                (some (jsOr (getErrorMessage payload) ("Failed to delete configuration")))))
    (fun e => (st, DeleteRes.mk false (some (networkErrorMessage e))))

end ApiTs

/-- `response.json()`: parse the body, throwing `SyntaxError` on invalid
JSON. -/
def responseJson (body : String) (parse : String → Option Jval) : Except JsError Jval :=
  match parse body with
  | some j => .ok j
  | none => .error jsSyntaxError

/-- Non-optional property access in the legacy service file throws a
`TypeError` when the parsed result is `null`. -/
def jnullGuard (v : Jval) : Except JsError Jval :=
  match v with
  | .jnull => .error jsTypeError
  | _ => .ok v

/-- Legacy 422 handling: `errorData.detail?.map(d => d.msg).filter(Boolean)
|| []` then `join(', ') || dflt`. Throws when `errorData` is `null`
(property access), when `detail` is a non-null non-array (no `.map`), or
when the array holds a `null` entry (`d.msg` on null). -/
def legacy422Msgs (errorData : Jval) (dflt : String) : Except JsError String :=
  match errorData with
  | .jnull => .error jsTypeError
  | _ =>
    match errorData.get ("detail") with
    | none => .ok dflt
    | some .jnull => .ok dflt
    | some (.jarr ds) =>
        if ds.any (fun d => match d with | .jnull => true | _ => false) then
          .error jsTypeError
        else .ok (jsOr (collectMsgs ds) dflt)
    | some _ => .error jsTypeError

/-- Legacy `(typeof result.error?.details === 'string' ? result.error.details
: result.error?.details?.toString()) || dflt`. -/
def legacyDetailsOr (result : Jval) (dflt : String) : String :=
  match (result.get ("error")).bind (fun e => e.get ("details")) with
  | none => dflt
  | some .jnull => dflt
  | some (.jstr s) => jsOr s dflt
  | some v => jsOr (jsToString v) dflt

/-- Legacy `result.message || (... details ...) || dflt`. -/
def legacyErrMsg (result : Jval) (dflt : String) : String :=
  match result.get ("message") with
  | some v => if v.truthy then jsToString v else legacyDetailsOr result dflt
  | none => legacyDetailsOr result dflt

/-- Legacy token-shape tolerance in `authAPI.login`: a bare string
`data`, else a truthy `data.access_token`, else a truthy `data.token`. -/
def extractToken (data : Jval) : Option Jval :=
  match data with
  | .jstr s => some (.jstr s)
  | _ =>
      if truthyOpt (data.get ("access_token")) then data.get ("access_token")
      else if truthyOpt (data.get ("token")) then data.get ("token")
      else none

namespace LegacyApi

/-- Legacy `authAPI.login`: dedicated 422 branch; on an ok success
envelope with truthy `data`, extract the token from any of the three
historical shapes, store it (string-coerced) and return it; otherwise
the message/details error chain with the `Login failed` default. -/
def login (st : Store) (r : HttpResult) (parse : String → Option Jval) :
    Store × LoginRes :=
  jsTry (do
      let resp ← r
      if resp.status = 422 then
        let errorData ← responseJson resp.body parse
        let msg ← legacy422Msgs errorData ("Validation error")
        pure (st, LoginRes.mk none (some msg))
      else
        let result ← jnullGuard (← responseJson resp.body parse)
        let tokenOpt : Option Jval :=
          if respOk resp.status && propIsStr result ("status") ("success") &&
              truthyOpt (result.get ("data")) then
            extractToken ((result.get ("data")).getD .jnull)
          else none
        match tokenOpt with
        | some tok =>
            if tok.truthy then
              pure ({ st with auth_token := some (jsToString tok) },
                    LoginRes.mk (some tok) none)
            else
              pure (st, LoginRes.mk none (some (legacyErrMsg result ("Login failed"))))
        | none => pure (st, LoginRes.mk none (some (legacyErrMsg result ("Login failed")))))
    (fun _ => (st, LoginRes.mk none (some ("Network error. Please try again."))))

/-- Legacy `authAPI.me`: on 401/403 clear the whole stored session and
report an authentication failure; on other non-ok statuses report the
envelope message; on ok, cache and return the user. -/
def me (st : Store) (r : HttpResult) (parse : String → Option Jval) :
    Store × UserRes :=
  jsTry (do
      let resp ← r
      if respOk resp.status = false then
        if resp.status = 401 || resp.status = 403 then
          pure (Store.mk none none,
                UserRes.mk none (some ("Authentication failed. Please login again.")))
        else
          let result ← jnullGuard (← responseJson resp.body parse)
          pure (st, UserRes.mk none (some (messageOr result ("Failed to get user info"))))
      else
        let result ← jnullGuard (← responseJson resp.body parse)
        match result.get ("data") with
        | some d =>
            if propIsStr result ("status") ("success") && d.truthy then
              pure ({ st with current_user := some (jsonStringify d) },
                    UserRes.mk (some d) none)
            else
              pure (st, UserRes.mk none (some (messageOr result ("Failed to get user info"))))
        | none =>
            pure (st, UserRes.mk none (some (messageOr result ("Failed to get user info")))))
    (fun _ => (st, UserRes.mk none (some ("Network error"))))

/-- Legacy `chatAPI.getAllChats`: on 401/403 clear the session; on ok
success with truthy `data`, return `data.messages` when it is an array
and `[]` otherwise. -/
def getAllChats (st : Store) (r : HttpResult) (parse : String → Option Jval) :
    Store × ChatsRes :=
  jsTry (do
      let resp ← r
      if respOk resp.status = false then
        if resp.status = 401 || resp.status = 403 then
          pure (Store.mk none none,
                ChatsRes.mk none (some ("Authentication failed. Please login again.")))
        else
          let result ← jnullGuard (← responseJson resp.body parse)
          pure (st, ChatsRes.mk none (some (messageOr result ("Failed to load chats"))))
      else
        let result ← jnullGuard (← responseJson resp.body parse)
        if propIsStr result ("status") ("success") && truthyOpt (result.get ("data")) then
          let chats : List Jval :=
            match result.get2 ("data") ("messages") with
            | some (.jarr xs) => xs
            | _ => []
          pure (st, ChatsRes.mk (some chats) none)
        else
          pure (st, ChatsRes.mk none (some (messageOr result ("Failed to load chats")))))
    (fun _ => (st, ChatsRes.mk none (some ("Network error. Please try again."))))

/-- Legacy `chatAPI.sendMessage`: the 401/403 branch returns the
authentication error WITHOUT clearing the session (the logout call is
commented out in the source); dedicated 422 branch; on ok success with
truthy `data`, return `data.llm`. -/
def sendMessage (st : Store) (r : HttpResult) (parse : String → Option Jval) :
    Store × ChatRes :=
  jsTry (do
      let resp ← r
      if respOk resp.status = false then
        if resp.status = 401 || resp.status = 403 then
          pure (st, ChatRes.mk none (some ("Authentication failed. Please login again.")))
        else if resp.status = 422 then
          let errorData ← responseJson resp.body parse
          let msg ← legacy422Msgs errorData ("Validation error")
          pure (st, ChatRes.mk none (some msg))
        else
          let result ← jnullGuard (← responseJson resp.body parse)
          pure (st, ChatRes.mk none (some (messageOr result ("Failed to get response"))))
      else
        let result ← jnullGuard (← responseJson resp.body parse)
        if propIsStr result ("status") ("success") && truthyOpt (result.get ("data")) then
          pure (st, ChatRes.mk (result.get2 ("data") ("llm")) none)
        else
          pure (st, ChatRes.mk none (some (legacyDetailsOr result ("Failed to get response")))))
    (fun _ => (st, ChatRes.mk none (some ("Network error. Please try again."))))

/-- Legacy `pacsAPI.getConfigurations`: on 401/403 clear the session; on
ok success with truthy `data`, return it as the config list. -/
def getConfigurations (st : Store) (r : HttpResult) (parse : String → Option Jval) :
    Store × ConfigsRes :=
  jsTry (do
      let resp ← r
      if respOk resp.status = false then
        if resp.status = 401 || resp.status = 403 then
          pure (Store.mk none none,
                ConfigsRes.mk none (some ("Authentication failed. Please login again.")))
        else
          let result ← jnullGuard (← responseJson resp.body parse)
          pure (st, ConfigsRes.mk none (some (messageOr result ("Failed to load configurations"))))
      else
        let result ← jnullGuard (← responseJson resp.body parse)
        if propIsStr result ("status") ("success") && truthyOpt (result.get ("data")) then
          pure (st, ConfigsRes.mk (result.get ("data")) none)
        else
          pure (st, ConfigsRes.mk none (some (messageOr result ("Failed to load configurations")))))
    (fun _ => (st, ConfigsRes.mk none (some ("Network error. Please try again."))))

/-- Legacy `pacsAPI.createConfiguration`: on 401/403 clear the session;
dedicated 422 branch; on ok success with truthy `data`, return it. -/
def createConfiguration (st : Store) (r : HttpResult) (parse : String → Option Jval) :
    Store × ConfigRes :=
  jsTry (do
      let resp ← r
      if respOk resp.status = false then
        if resp.status = 401 || resp.status = 403 then
          pure (Store.mk none none,
                ConfigRes.mk none (some ("Authentication failed. Please login again.")))
        else if resp.status = 422 then
          let errorData ← responseJson resp.body parse
          let msg ← legacy422Msgs errorData ("Validation error")
          pure (st, ConfigRes.mk none (some msg))
        else
          let result ← jnullGuard (← responseJson resp.body parse)
          pure (st, ConfigRes.mk none (some (messageOr result ("Failed to create configuration"))))
      else
        let result ← jnullGuard (← responseJson resp.body parse)
        if propIsStr result ("status") ("success") && truthyOpt (result.get ("data")) then
          pure (st, ConfigRes.mk (result.get ("data")) none)
        else
          pure (st, ConfigRes.mk none (some (messageOr result ("Failed to create configuration")))))
    (fun _ => (st, ConfigRes.mk none (some ("Network error. Please try again."))))

/-- Legacy `pacsAPI.updateConfiguration`: same shape as create with the
update default messages. -/
def updateConfiguration (st : Store) (r : HttpResult) (parse : String → Option Jval) :
    Store × ConfigRes :=
  jsTry (do
      let resp ← r
      if respOk resp.status = false then
        if resp.status = 401 || resp.status = 403 then
          pure (Store.mk none none,
                ConfigRes.mk none (some ("Authentication failed. Please login again.")))
        else if resp.status = 422 then
          let errorData ← responseJson resp.body parse
          let msg ← legacy422Msgs errorData ("Validation error")
          pure (st, ConfigRes.mk none (some msg))
        else
          let result ← jnullGuard (← responseJson resp.body parse)
          pure (st, ConfigRes.mk none (some (messageOr result ("Failed to update configuration"))))
      else
        let result ← jnullGuard (← responseJson resp.body parse)
        if propIsStr result ("status") ("success") && truthyOpt (result.get ("data")) then
          pure (st, ConfigRes.mk (result.get ("data")) none)
        else
          pure (st, ConfigRes.mk none (some (messageOr result ("Failed to update configuration")))))
    (fun _ => (st, ConfigRes.mk none (some ("Network error. Please try again."))))

/-- Legacy `pacsAPI.deleteConfiguration`: on 401/403 clear the session
and fail; on ok, success is the envelope status alone. -/
def deleteConfiguration (st : Store) (r : HttpResult) (parse : String → Option Jval) :
    Store × DeleteRes :=
  jsTry (do
      let resp ← r
      if respOk resp.status = false then
        if resp.status = 401 || resp.status = 403 then
          pure (Store.mk none none,
                DeleteRes.mk false (some ("Authentication failed. Please login again.")))
        else
          let result ← jnullGuard (← responseJson resp.body parse)
          pure (st, DeleteRes.mk false (some (messageOr result ("Failed to delete configuration"))))
      else
        let result ← jnullGuard (← responseJson resp.body parse)
        if propIsStr result ("status") ("success") then
          pure (st, DeleteRes.mk true none)
        else
          pure (st, DeleteRes.mk false (some (messageOr result ("Failed to delete configuration")))))
    (fun _ => (st, DeleteRes.mk false (some ("Network error. Please try again."))))

end LegacyApi

/-- In-memory React auth state (the `user` and `token` `useState` cells)
together with the durable store. -/
structure SessionState where
  store : Store
  user : Option Jval
  token : Option Jval

/-- Outcome of a context-level login: `{ success, error? }`. -/
structure CtxOutcome where
  success : Bool
  error : Option String

/-- `meResult.error || dflt` on an optional string. -/
def optJsOr (o : Option String) (dflt : String) : String :=
  match o with
  | some s => jsOr s dflt
  | none => dflt

namespace AuthCtx

/-- src/contexts/AuthContext.tsx `login`: call `authAPI.login`; when a
token came back, set it in memory, call `authAPI.me`, set the user only
when the profile fetch succeeded — and return `{ success: true }`
unconditionally, leaving the stored token in place when the profile
fetch failed. -/
def login (st : SessionState) (loginR meR : HttpResult)
    (parse : String → Option Jval) : SessionState × CtxOutcome :=
  let res1 := ApiTs.login st.store loginR parse
  match (res1.2).token with
  | some tok =>
      let st1 : SessionState := SessionState.mk res1.1 st.user (some tok)
      let res2 := ApiTs.me st1.store meR parse
      let st2 : SessionState := SessionState.mk res2.1 st1.user st1.token
      match (res2.2).user with
      | some u => (SessionState.mk st2.store (some u) st2.token, CtxOutcome.mk true none)
      | none => (st2, CtxOutcome.mk true none)
  | none => (SessionState.mk res1.1 st.user st.token, CtxOutcome.mk false (res1.2).error)

end AuthCtx

namespace AuthCtxHardened

/-- Hardened AuthContext `login` (the variant that rolls back): when the
profile fetch after token issuance fails, call `authAPI.logout`, clear
the in-memory user and token, and report failure. -/
def login (st : SessionState) (loginR meR : HttpResult)
    (parse : String → Option Jval) : SessionState × CtxOutcome :=
  let res1 := ApiTs.login st.store loginR parse
  match (res1.2).token with
  | none => (SessionState.mk res1.1 st.user st.token, CtxOutcome.mk false (res1.2).error)
  | some tok =>
      let st1 : SessionState := SessionState.mk res1.1 st.user (some tok)
      let res2 := ApiTs.me st1.store meR parse
      match (res2.2).user with
      | some u => (SessionState.mk res2.1 (some u) st1.token, CtxOutcome.mk true none)
      | none =>
          (SessionState.mk (ApiTs.logout res2.1) none none,
           CtxOutcome.mk false (some (optJsOr (res2.2).error ("Failed to load user session"))))

end AuthCtxHardened

/-- A success envelope whose `data` carries an `access_token`. -/
def loginSuccessEnv : Jval :=
  .jobj [(("status"), .jstr ("success")),
         (("data"), .jobj [(("access_token"), .jstr ("tok123"))])]

/-- An error envelope carrying only a message, as a 401 backend reply. -/
def unauthorizedEnv : Jval :=
  .jobj [(("status"), .jstr ("error")), (("message"), .jstr ("Unauthorized"))]

/-- Parse oracle: the login body parses to the success envelope, every
other body to the Unauthorized error envelope. -/
def parseLoginThenError : String → Option Jval :=
  fun s => if s = "loginBody" then some loginSuccessEnv else some unauthorizedEnv

/-- The FastAPI validation payload of the 422 invariant. -/
def validationPayload : Jval :=
  .jobj [(("detail"), .jarr
    [ .jobj [(("msg"), .jstr ("field required"))]
    , .jobj [(("msg"), .jstr ("too short"))] ])]

/-- A store holding a stale token and cached user. -/
def staleStore : Store := Store.mk (some ("staletok")) (some ("staleuser"))

/-- A success envelope whose `data` carries a chat response. -/
def chatSuccessEnv : Jval :=
  .jobj [(("status"), .jstr ("success")),
         (("data"), .jobj [(("response"), .jstr ("hello"))])]

/-- A success envelope whose `data` is a bare token string. -/
def bareTokenEnv : Jval :=
  .jobj [(("status"), .jstr ("success")), (("data"), .jstr ("tok-bare"))]

/-- A success envelope whose `data` carries the token under the legacy
`token` field name. -/
def tokenFieldEnv : Jval :=
  .jobj [(("status"), .jstr ("success")),
         (("data"), .jobj [(("token"), .jstr ("tok-t"))])]

/-- C1: the claim says a login whose profile fetch fails after token
issuance must report failure and leave neither a stored token nor a
stored user. The src/contexts/AuthContext.tsx `login` violates this: at
a login response issuing token `tok123` followed by a failing `me`, it
terminates with `success = true`, the token stored durably and in
memory, and no user. The hardened revision of the same function clears
everything and reports failure at the same inputs, matching the claim. -/
theorem C1_login_partial_session :
    (AuthCtx.login (SessionState.mk store0 none none)
        (.ok (HttpResponse.mk 200 ("loginBody")))
        (.ok (HttpResponse.mk 401 ("meBody"))) parseLoginThenError
      = (SessionState.mk (Store.mk (some ("tok123")) none) none (some (.jstr ("tok123"))),
         CtxOutcome.mk true none))
    ∧
    (AuthCtxHardened.login (SessionState.mk store0 none none)
        (.ok (HttpResponse.mk 200 ("loginBody")))
        (.ok (HttpResponse.mk 401 ("meBody"))) parseLoginThenError
      = (SessionState.mk (Store.mk none none) none none,
         CtxOutcome.mk false (some ("Unauthorized")))) := by
  exact ⟨rfl, rfl⟩

/-- C4: on the validation payload with msgs `field required` and
`too short`, the extracted error string is exactly
`field required, too short`, both for `getErrorMessage` itself and as
the error returned by the service operations receiving that payload. -/
theorem C4_validation_messages_joined :
    getErrorMessage validationPayload = "field required, too short" ∧
    (ApiTs.login store0 (.ok (HttpResponse.mk 422 ("vbody")))
        (fun _ => some validationPayload)).2
      = LoginRes.mk none (some ("field required, too short")) ∧
    (LegacyApi.login store0 (.ok (HttpResponse.mk 422 ("vbody")))
        (fun _ => some validationPayload)).2
      = LoginRes.mk none (some ("field required, too short")) ∧
    (ApiTs.sendMessage store0 (.ok (HttpResponse.mk 422 ("vbody")))
        (fun _ => some validationPayload)).2
      = ChatRes.mk none (some ("field required, too short")) := by
  exact ⟨rfl, rfl, rfl, rfl⟩

/-- C10: an empty response body makes `safeReadJson` return `null`, so
every requestApi-based operation reports failure with the default
message `An error occurred`, whatever the HTTP status — an empty-body
2xx response is never mapped to a success result. -/
theorem C10_empty_body_never_success (st : Store) (status : Nat)
    (parse : String → Option Jval) :
    safeReadJson ("") parse = .jnull ∧
    requestApi (.ok (HttpResponse.mk status (""))) parse = .ok .jnull ∧
    (ApiTs.login st (.ok (HttpResponse.mk status (""))) parse).2
      = LoginRes.mk none (some ("An error occurred")) ∧
    (ApiTs.me st (.ok (HttpResponse.mk status (""))) parse).2
      = UserRes.mk none (some ("An error occurred")) ∧
    (ApiTs.sendMessage st (.ok (HttpResponse.mk status (""))) parse).2
      = ChatRes.mk none (some ("An error occurred")) ∧
    (ApiTs.getConfigurations st (.ok (HttpResponse.mk status (""))) parse).2
      = ConfigsRes.mk none (some ("An error occurred")) ∧
    (ApiTs.deleteConfiguration st (.ok (HttpResponse.mk status (""))) parse).2
      = DeleteRes.mk false (some ("An error occurred")) := by
  exact ⟨rfl, rfl, rfl, rfl, rfl, rfl, rfl⟩

/-- C2: a request through the Request Executor that gets no response
within the default 20000 ms deadline is aborted and yields the
timeout-specific message, distinct from the generic network-error
message returned for every other transport exception; the timeout timer
is cleared on every path. -/
theorem C2_timeout_abort_and_message :
    (∀ d resp, DEFAULT_TIMEOUT_MS ≤ d →
       fetchWithTimeout DEFAULT_TIMEOUT_MS (.resolves d resp)
         = FetchOutcome.mk (.error abortError) true true) ∧
    (∀ d e, DEFAULT_TIMEOUT_MS ≤ d →
       fetchWithTimeout DEFAULT_TIMEOUT_MS (.rejects d e)
         = FetchOutcome.mk (.error abortError) true true) ∧
    (fetchWithTimeout DEFAULT_TIMEOUT_MS .hangs
       = FetchOutcome.mk (.error abortError) true true) ∧
    (∀ t b, (fetchWithTimeout t b).timerCleared = true) ∧
    (networkErrorMessage abortError = "Request timed out. Please try again.") ∧
    (∀ e, isAbortError e = false →
       networkErrorMessage e = "Network error. Please try again.") ∧
    (("Request timed out. Please try again." : String) ≠ "Network error. Please try again.") ∧
    (∀ st parse d resp, DEFAULT_TIMEOUT_MS ≤ d →
       (ApiTs.sendMessage st
           (fetchWithTimeout DEFAULT_TIMEOUT_MS (.resolves d resp)).result parse).2
         = ChatRes.mk none (some ("Request timed out. Please try again."))) := by
  refine ⟨?_, ?_, rfl, ?_, rfl, ?_, by decide, ?_⟩
  · intro d resp h
    simp [fetchWithTimeout, Nat.not_lt.mpr h]
  · intro d e h
    simp [fetchWithTimeout, Nat.not_lt.mpr h]
  · intro t b
    cases b <;> simp [fetchWithTimeout] <;> split <;> rfl
  · intro e h
    simp [networkErrorMessage, h]
  · intro st parse d resp h
    simp [fetchWithTimeout, Nat.not_lt.mpr h]
    rfl

/-- C2 witness: at a transport that would resolve only after 25000 ms,
the executor aborts and the chat-send operation returns the
timeout-specific message. -/
theorem C2_timeout_abort_and_message_witness :
    fetchWithTimeout DEFAULT_TIMEOUT_MS
        (.resolves 25000 (HttpResponse.mk 200 ("late")))
      = FetchOutcome.mk (.error abortError) true true ∧
    (ApiTs.sendMessage store0
        (fetchWithTimeout DEFAULT_TIMEOUT_MS
          (.resolves 25000 (HttpResponse.mk 200 ("late")))).result
        (fun _ => none)).2
      = ChatRes.mk none (some ("Request timed out. Please try again.")) :=
  ⟨C2_timeout_abort_and_message.1 25000 (HttpResponse.mk 200 ("late")) (by decide),
   C2_timeout_abort_and_message.2.2.2.2.2.2.2 store0 (fun _ => none) 25000
     (HttpResponse.mk 200 ("late")) (by decide)⟩

/-- C3: a non-empty body that fails to parse as JSON makes the Request
Executor return (not throw) the synthesized envelope: status `error`,
`error.code = NON_JSON_RESPONSE`, and `message` equal to the body text,
whatever the HTTP status. -/
theorem C3_non_json_body (body : String) (status : Nat)
    (parse : String → Option Jval)
    (hb : body ≠ "") (hp : parse body = none) :
    requestApi (.ok (HttpResponse.mk status body)) parse = .ok (nonJsonEnvelope body) ∧
    propIsStr (nonJsonEnvelope body) ("status") ("error") = true ∧
    (nonJsonEnvelope body).get2 ("error") ("code") = some (.jstr ("NON_JSON_RESPONSE")) ∧
    (nonJsonEnvelope body).get ("message") = some (.jstr body) := by
  refine ⟨?_, by rfl, by rfl, by rfl⟩
  show Except.ok (safeReadJson body parse) = _
  rw [safeReadJson, if_neg hb, hp]

/-- C3 witness: the HTML body of a 502 reverse-proxy reply yields the
synthesized `NON_JSON_RESPONSE` envelope. -/
theorem C3_non_json_body_witness :
    requestApi (.ok (HttpResponse.mk 502 ("<html>Bad Gateway</html>")))
        (fun _ => none)
      = .ok (nonJsonEnvelope ("<html>Bad Gateway</html>")) ∧
    propIsStr (nonJsonEnvelope ("<html>Bad Gateway</html>")) ("status") ("error") = true ∧
    (nonJsonEnvelope ("<html>Bad Gateway</html>")).get2 ("error") ("code")
      = some (.jstr ("NON_JSON_RESPONSE")) ∧
    (nonJsonEnvelope ("<html>Bad Gateway</html>")).get ("message")
      = some (.jstr ("<html>Bad Gateway</html>")) :=
  C3_non_json_body ("<html>Bad Gateway</html>") 502 (fun _ => none) (by decide) rfl

/-- `Except` bind on a success value reduces to the continuation. -/
theorem exceptBind_ok {α β : Type} (a : α) (f : α → Except JsError β) :
    (Except.ok a : Except JsError α) >>= f = f a := rfl

/-- `Except` bind on a thrown error propagates the error. -/
theorem exceptBind_err {α β : Type} (e : JsError) (f : α → Except JsError β) :
    (Except.error e : Except JsError α) >>= f = .error e := rfl

/-- `pure` in the `Except` monad is `ok`. -/
theorem exceptPure {α : Type} (a : α) : (pure a : Except JsError α) = .ok a := rfl

/-- Truthiness of a present value. -/
theorem truthyOpt_some (v : Jval) : truthyOpt (some v) = v.truthy := rfl

/-- Object literals are truthy. -/
theorem truthy_jobj (gs : List (String × Jval)) : (Jval.jobj gs).truthy = true := rfl

/-- C5 counterexample: `authAPI.getCurrentUser` lets a parse exception
escape when the durable store's `current_user` entry is non-empty text
that is not valid JSON — contradicting the claim that no exported
operation ever throws, for every store content. -/
theorem C5_getCurrentUser_parse_exception :
    ApiTs.getCurrentUser (Store.mk none (some ("not json"))) (fun _ => none)
      = .error jsSyntaxError := rfl

/-- C5 amended: `getToken` never throws; `getCurrentUser` does not throw
whenever the cached user text is absent, empty, or parseable; and every
async operation of authAPI, chatAPI and pacsAPI returns a plain result
with its success field or its error set, for every transport outcome and
every parse behaviour (their bodies are fully wrapped in try/catch). -/
theorem C5_no_exception_escape :
    (∀ st, ApiTs.getToken st = .ok st.auth_token) ∧
    (∀ st, ApiTs.logout st = Store.mk none none) ∧
    (∀ st parse, (∀ s, st.current_user = some s → s ≠ "" → parse s ≠ none) →
       ∃ u, ApiTs.getCurrentUser st parse = .ok u) ∧
    (∀ st r parse, (ApiTs.login st r parse).2.token ≠ none ∨
       (ApiTs.login st r parse).2.error ≠ none) ∧
    (∀ st r parse, (ApiTs.signup st r parse).2.user ≠ none ∨
       (ApiTs.signup st r parse).2.error ≠ none) ∧
    (∀ st r parse, (ApiTs.me st r parse).2.user ≠ none ∨
       (ApiTs.me st r parse).2.error ≠ none) ∧
    (∀ st r parse, (ApiTs.sendMessage st r parse).2.response ≠ none ∨
       (ApiTs.sendMessage st r parse).2.error ≠ none) ∧
    (∀ st r parse, (ApiTs.getConfigurations st r parse).2.configs ≠ none ∨
       (ApiTs.getConfigurations st r parse).2.error ≠ none) ∧
    (∀ st r parse, (ApiTs.createConfiguration st r parse).2.config ≠ none ∨
       (ApiTs.createConfiguration st r parse).2.error ≠ none) ∧
    (∀ st r parse, (ApiTs.updateConfiguration st r parse).2.config ≠ none ∨
       (ApiTs.updateConfiguration st r parse).2.error ≠ none) ∧
    (∀ st r parse, (ApiTs.deleteConfiguration st r parse).2.success = true ∨
       (ApiTs.deleteConfiguration st r parse).2.error ≠ none) := by
  refine ⟨fun st => rfl, fun st => rfl, ?_, ?_, ?_, ?_, ?_, ?_, ?_, ?_, ?_⟩
  · intro st parse h
    match hcu : st.current_user with
    | none => exact ⟨none, by simp [ApiTs.getCurrentUser, hcu]⟩
    | some s =>
        by_cases hs : s = ""
        · exact ⟨none, by simp [ApiTs.getCurrentUser, hcu, hs]⟩
        · rcases hps : parse s with _ | j
          · exact absurd hps (h s hcu hs)
          · exact ⟨some j, by simp [ApiTs.getCurrentUser, hcu, hs, hps]⟩
  · intro st r parse
    cases r with
    | error e => right; simp [ApiTs.login, requestApi, jsTry, exceptBind_err]
    | ok resp =>
        simp only [ApiTs.login, requestApi, exceptBind_ok, exceptPure, jsTry]
        split
        · next a heq =>
            split at heq <;> (try split at heq) <;>
              (injection heq with h; subst h; simp)
        · next e heq =>
            split at heq <;> (try split at heq) <;> simp_all
  · intro st r parse
    cases r with
    | error e => right; simp [ApiTs.signup, requestApi, jsTry, exceptBind_err]
    | ok resp =>
        simp only [ApiTs.signup, requestApi, exceptBind_ok, exceptPure, jsTry]
        split
        · next a heq =>
            split at heq <;> (try split at heq) <;>
              (injection heq with h; subst h; simp)
        · next e heq =>
            split at heq <;> (try split at heq) <;> simp_all
  · intro st r parse
    cases r with
    | error e => right; simp [ApiTs.me, requestApi, jsTry, exceptBind_err]
    | ok resp =>
        simp only [ApiTs.me, requestApi, exceptBind_ok, exceptPure, jsTry]
        split
        · next a heq =>
            split at heq <;> (try split at heq) <;>
              (injection heq with h; subst h; simp)
        · next e heq =>
            split at heq <;> (try split at heq) <;> simp_all
  · intro st r parse
    cases r with
    | error e => right; simp [ApiTs.sendMessage, requestApi, jsTry, exceptBind_err]
    | ok resp =>
        simp only [ApiTs.sendMessage, requestApi, exceptBind_ok, exceptPure, jsTry]
        split
        · next a heq =>
            split at heq
            · next hcond =>
                injection heq with h
                subst h
                simp only [ne_eq]
                left
                intro hnone
                rw [hnone] at hcond
                simp [truthyOpt] at hcond
            · injection heq with h
              subst h
              simp
        · next e heq =>
            split at heq <;> simp_all
  · intro st r parse
    cases r with
    | error e => right; simp [ApiTs.getConfigurations, requestApi, jsTry, exceptBind_err]
    | ok resp =>
        simp only [ApiTs.getConfigurations, requestApi, exceptBind_ok, exceptPure, jsTry]
        split
        · next a heq =>
            split at heq
            · next hcond =>
                injection heq with h
                subst h
                simp only [ne_eq]
                left
                intro hnone
                rw [hnone] at hcond
                simp [truthyOpt] at hcond
            · injection heq with h
              subst h
              simp
        · next e heq =>
            split at heq <;> simp_all
  · intro st r parse
    cases r with
    | error e => right; simp [ApiTs.createConfiguration, requestApi, jsTry, exceptBind_err]
    | ok resp =>
        simp only [ApiTs.createConfiguration, requestApi, exceptBind_ok, exceptPure, jsTry]
        split
        · next a heq =>
            split at heq
            · next hcond =>
                injection heq with h
                subst h
                simp only [ne_eq]
                left
                intro hnone
                rw [hnone] at hcond
                simp [truthyOpt] at hcond
            · injection heq with h
              subst h
              simp
        · next e heq =>
            split at heq <;> simp_all
  · intro st r parse
    cases r with
    | error e => right; simp [ApiTs.updateConfiguration, requestApi, jsTry, exceptBind_err]
    | ok resp =>
        simp only [ApiTs.updateConfiguration, requestApi, exceptBind_ok, exceptPure, jsTry]
        split
        · next a heq =>
            split at heq
            · next hcond =>
                injection heq with h
                subst h
                simp only [ne_eq]
                left
                intro hnone
                rw [hnone] at hcond
                simp [truthyOpt] at hcond
            · injection heq with h
              subst h
              simp
        · next e heq =>
            split at heq <;> simp_all
  · intro st r parse
    cases r with
    | error e => right; simp [ApiTs.deleteConfiguration, requestApi, jsTry, exceptBind_err]
    | ok resp =>
        simp only [ApiTs.deleteConfiguration, requestApi, exceptBind_ok, exceptPure, jsTry]
        split
        · next a heq =>
            split at heq <;> (injection heq with h; subst h; simp)
        · next e heq =>
            split at heq <;> simp_all

/-- C5 witness: concrete instances of the amended guarantees. -/
theorem C5_no_exception_escape_witness :
    ApiTs.getToken staleStore = .ok (some ("staletok")) ∧
    (∃ u, ApiTs.getCurrentUser (Store.mk none (some ("1")))
            (fun _ => some (.jnum 1)) = .ok u) ∧
    ((ApiTs.login store0 (.error jsTypeError) (fun _ => none)).2.token ≠ none ∨
     (ApiTs.login store0 (.error jsTypeError) (fun _ => none)).2.error ≠ none) :=
  ⟨C5_no_exception_escape.1 staleStore,
   C5_no_exception_escape.2.2.1 (Store.mk none (some ("1")))
     (fun _ => some (.jnum 1)) (fun s _ _ => by simp),
   C5_no_exception_escape.2.2.2.1 store0 (.error jsTypeError) (fun _ => none)⟩

/-- C6: for an envelope with status `success` and the relevant data
present and truthy, chat-send and PACS-list return the mapped success
result with no error set; for an envelope with status `error` they
return only an error string, with the success field unset. -/
theorem C6_envelope_mapping (st : Store) (resp : HttpResponse)
    (parse : String → Option Jval) (payload : Jval)
    (hb : resp.body ≠ "") (hp : parse resp.body = some payload) :
    (payload.get ("status") = some (.jstr ("success")) →
       (∀ v, payload.get2 ("data") ("response") = some v → v.truthy = true →
          (ApiTs.sendMessage st (.ok resp) parse).2 = ChatRes.mk (some v) none) ∧
       (∀ d, payload.get ("data") = some d → d.truthy = true →
          (ApiTs.getConfigurations st (.ok resp) parse).2 = ConfigsRes.mk (some d) none)) ∧
    (payload.get ("status") = some (.jstr ("error")) →
       ((ApiTs.sendMessage st (.ok resp) parse).2.response = none ∧
        (ApiTs.sendMessage st (.ok resp) parse).2.error
          = some (jsOr (getErrorMessage payload) ("Failed to get response")) ∧
        (ApiTs.getConfigurations st (.ok resp) parse).2.configs = none ∧
        (ApiTs.getConfigurations st (.ok resp) parse).2.error
          = some (jsOr (getErrorMessage payload) ("Failed to load configurations")))) := by
  have hsrj : safeReadJson resp.body parse = payload := by
    rw [safeReadJson, if_neg hb, hp]
  constructor
  · intro hst
    constructor
    · intro v hv htr
      simp only [ApiTs.sendMessage, requestApi, exceptBind_ok, exceptPure, jsTry, hsrj,
        propIsStr, hst, hv, truthyOpt_some, htr]
      simp [htr]
    · intro d hd htr
      simp only [ApiTs.getConfigurations, requestApi, exceptBind_ok, exceptPure, jsTry, hsrj,
        propIsStr, hst, hd, truthyOpt_some, htr]
      simp [htr]
  · intro hst
    refine ⟨?_, ?_, ?_, ?_⟩ <;>
      (simp only [ApiTs.sendMessage, ApiTs.getConfigurations, requestApi, exceptBind_ok,
        exceptPure, jsTry, propIsStr, hsrj, hst]; simp)

/-- C6 witness: a success envelope with a chat response maps to the
response with no error; an error envelope leaves the success field
unset. -/
theorem C6_envelope_mapping_witness :
    (ApiTs.sendMessage store0 (.ok (HttpResponse.mk 200 ("cbody")))
        (fun _ => some chatSuccessEnv)).2
      = ChatRes.mk (some (.jstr ("hello"))) none ∧
    (ApiTs.sendMessage store0 (.ok (HttpResponse.mk 500 ("ebody")))
        (fun _ => some unauthorizedEnv)).2.response = none :=
  ⟨((C6_envelope_mapping store0 (HttpResponse.mk 200 ("cbody"))
       (fun _ => some chatSuccessEnv) chatSuccessEnv (by decide) rfl).1 rfl).1
     (.jstr ("hello")) rfl rfl,
   ((C6_envelope_mapping store0 (HttpResponse.mk 500 ("ebody"))
       (fun _ => some unauthorizedEnv) unauthorizedEnv (by decide) rfl).2 rfl).1⟩

/-- C7 counterexample: the requestApi-based `authAPI.login` does not
tolerate the bare-string token shape — at a success envelope whose
`data` is the bare token string, it stores nothing and returns only an
error, contradicting the claim that every login variant extracts all
three historical shapes. -/
theorem C7_apits_login_rejects_bare_token :
    ApiTs.login store0 (.ok (HttpResponse.mk 200 ("b")))
        (fun _ => some bareTokenEnv)
      = (store0, LoginRes.mk none (some ("An error occurred"))) := rfl

/-- C7 amended: the legacy `authAPI.login` extracts the bearer token
from any of the three historical shapes — bare string, `access_token`
field, or `token` field — and stores the (string-coerced) token before
returning it; the requestApi-based login accepts only the
`access_token` object shape. -/
theorem C7_legacy_login_token_shapes (st : Store) (status0 : Nat) (body0 : String)
    (parse : String → Option Jval) (result : Jval)
    (hok : respOk status0 = true) (h422 : status0 ≠ 422)
    (hp : parse body0 = some result)
    (hs : propIsStr result ("status") ("success") = true) :
    (∀ s, result.get ("data") = some (.jstr s) → s ≠ "" →
       LegacyApi.login st (.ok (HttpResponse.mk status0 body0)) parse
         = ({ st with auth_token := some s }, LoginRes.mk (some (.jstr s)) none)) ∧
    (∀ d v, result.get ("data") = some d → d.get ("access_token") = some v →
       v.truthy = true →
       LegacyApi.login st (.ok (HttpResponse.mk status0 body0)) parse
         = ({ st with auth_token := some (jsToString v) }, LoginRes.mk (some v) none)) ∧
    (∀ d w, result.get ("data") = some d → truthyOpt (d.get ("access_token")) = false →
       d.get ("token") = some w → w.truthy = true →
       LegacyApi.login st (.ok (HttpResponse.mk status0 body0)) parse
         = ({ st with auth_token := some (jsToString w) }, LoginRes.mk (some w) none)) := by
  cases result with
  | jnull => simp [propIsStr, Jval.get] at hs
  | jbool b => simp [propIsStr, Jval.get] at hs
  | jnum n => simp [propIsStr, Jval.get] at hs
  | jstr s => simp [propIsStr, Jval.get] at hs
  | jarr xs => simp [propIsStr, Jval.get] at hs
  | jobj fs =>
    refine ⟨?_, ?_, ?_⟩
    · intro s hdata hne
      simp only [LegacyApi.login, exceptBind_ok, jsTry, if_neg h422, responseJson, hp,
        jnullGuard, hok, hs, hdata, truthyOpt, Jval.truthy, extractToken, Option.getD,
        Bool.true_and, Bool.and_true, exceptPure, hne, ne_eq, not_false_eq_true,
        decide_not]
      simp [Jval.truthy, hne]
      rfl
    · intro d v hdata hv htr
      cases d with
      | jnull => simp [Jval.get] at hv
      | jbool b => simp [Jval.get] at hv
      | jnum n => simp [Jval.get] at hv
      | jstr t => simp [Jval.get] at hv
      | jarr xs => simp [Jval.get] at hv
      | jobj gs =>
        simp only [LegacyApi.login, exceptBind_ok, jsTry, if_neg h422, responseJson, hp,
          jnullGuard, hok, hs, hdata, truthyOpt_some, extractToken, Option.getD,
          Bool.true_and, Bool.and_true, exceptPure, hv, htr, ne_eq, decide_not]
        simp [truthy_jobj, htr]
    · intro d w hdata hfal hw htr
      cases d with
      | jnull => simp [Jval.get] at hw
      | jbool b => simp [Jval.get] at hw
      | jnum n => simp [Jval.get] at hw
      | jstr t => simp [Jval.get] at hw
      | jarr xs => simp [Jval.get] at hw
      | jobj gs =>
        simp only [LegacyApi.login, exceptBind_ok, jsTry, if_neg h422, responseJson, hp,
          jnullGuard, hok, hs, hdata, truthyOpt_some, extractToken, Option.getD,
          Bool.true_and, Bool.and_true, exceptPure, hfal, hw, htr, ne_eq, decide_not]
        simp [truthy_jobj, htr]

/-- C7 witness: the legacy login at each of the three concrete shapes
stores and returns the token. -/
theorem C7_legacy_login_token_shapes_witness :
    LegacyApi.login store0 (.ok (HttpResponse.mk 200 ("b1")))
        (fun _ => some bareTokenEnv)
      = (Store.mk (some ("tok-bare")) none, LoginRes.mk (some (.jstr ("tok-bare"))) none) ∧
    LegacyApi.login store0 (.ok (HttpResponse.mk 200 ("b2")))
        (fun _ => some loginSuccessEnv)
      = (Store.mk (some ("tok123")) none, LoginRes.mk (some (.jstr ("tok123"))) none) ∧
    LegacyApi.login store0 (.ok (HttpResponse.mk 200 ("b3")))
        (fun _ => some tokenFieldEnv)
      = (Store.mk (some ("tok-t")) none, LoginRes.mk (some (.jstr ("tok-t"))) none) :=
  ⟨(C7_legacy_login_token_shapes store0 200 ("b1") (fun _ => some bareTokenEnv)
      bareTokenEnv rfl (by decide) rfl rfl).1 ("tok-bare") rfl (by decide),
   (C7_legacy_login_token_shapes store0 200 ("b2") (fun _ => some loginSuccessEnv)
      loginSuccessEnv rfl (by decide) rfl rfl).2.1
     (.jobj [(("access_token"), .jstr ("tok123"))]) (.jstr ("tok123")) rfl rfl (by decide),
   (C7_legacy_login_token_shapes store0 200 ("b3") (fun _ => some tokenFieldEnv)
      tokenFieldEnv rfl (by decide) rfl rfl).2.2
     (.jobj [(("token"), .jstr ("tok-t"))]) (.jstr ("tok-t")) rfl rfl rfl (by decide)⟩

/-- C8 counterexample: the requestApi-based `authAPI.me` never inspects
the HTTP status; at a 401 response it returns only the envelope message
and leaves the stale token and cached user in the store, contradicting
the claim that every `me` call clears the session on 401/403. -/
theorem C8_apits_me_keeps_session_on_401 :
    ApiTs.me staleStore (.ok (HttpResponse.mk 401 ("b")))
        (fun _ => some unauthorizedEnv)
      = (staleStore, UserRes.mk none (some ("Unauthorized"))) := rfl

/-- C8 amended: the legacy `authAPI.me` on an HTTP 401 or 403 response
clears both stored keys and returns the authentication-failure error;
the requestApi-based `me` ignores the HTTP status and leaves the stored
session untouched. -/
theorem C8_legacy_me_clears_session (st : Store) (status0 : Nat) (body0 : String)
    (parse : String → Option Jval) (h : status0 = 401 ∨ status0 = 403) :
    LegacyApi.me st (.ok (HttpResponse.mk status0 body0)) parse
      = (Store.mk none none,
         UserRes.mk none (some ("Authentication failed. Please login again."))) := by
  rcases h with h | h <;> subst h <;> rfl

/-- C8 witness: a concrete 401 `me` call on a stale store ends with both
keys cleared. -/
theorem C8_legacy_me_clears_session_witness :
    LegacyApi.me staleStore (.ok (HttpResponse.mk 401 ("ignored"))) (fun _ => none)
      = (Store.mk none none,
         UserRes.mk none (some ("Authentication failed. Please login again."))) :=
  C8_legacy_me_clears_session staleStore 401 ("ignored") (fun _ => none) (Or.inl rfl)

/-- C9 counterexample: the requestApi-based `pacsAPI.getConfigurations`
never inspects the HTTP status; at a 401 response it returns only the
envelope message and leaves the stored session untouched, contradicting
the claim that every domain operation except chat-send triggers the
logout path on 401/403. -/
theorem C9_apits_getConfigurations_no_logout :
    ApiTs.getConfigurations staleStore (.ok (HttpResponse.mk 401 ("b")))
        (fun _ => some unauthorizedEnv)
      = (staleStore, ConfigsRes.mk none (some ("Unauthorized"))) := rfl

/-- C9 amended: in the legacy service file, every domain operation
(chat list, PACS list/create/update/delete) on an HTTP 401 or 403
response clears the stored session and returns the
authentication-failure error, and `chatAPI.sendMessage` is the single
exemption that returns that error without clearing the session; in the
requestApi-based file no domain operation inspects the HTTP status or
clears the session. -/
theorem C9_legacy_domain_logout (st : Store) (status0 : Nat) (body0 : String)
    (parse : String → Option Jval) (h : status0 = 401 ∨ status0 = 403) :
    LegacyApi.getAllChats st (.ok (HttpResponse.mk status0 body0)) parse
      = (Store.mk none none,
         ChatsRes.mk none (some ("Authentication failed. Please login again."))) ∧
    LegacyApi.getConfigurations st (.ok (HttpResponse.mk status0 body0)) parse
      = (Store.mk none none,
         ConfigsRes.mk none (some ("Authentication failed. Please login again."))) ∧
    LegacyApi.createConfiguration st (.ok (HttpResponse.mk status0 body0)) parse
      = (Store.mk none none,
         ConfigRes.mk none (some ("Authentication failed. Please login again."))) ∧
    LegacyApi.updateConfiguration st (.ok (HttpResponse.mk status0 body0)) parse
      = (Store.mk none none,
         ConfigRes.mk none (some ("Authentication failed. Please login again."))) ∧
    LegacyApi.deleteConfiguration st (.ok (HttpResponse.mk status0 body0)) parse
      = (Store.mk none none,
         DeleteRes.mk false (some ("Authentication failed. Please login again."))) ∧
    LegacyApi.sendMessage st (.ok (HttpResponse.mk status0 body0)) parse
      = (st, ChatRes.mk none (some ("Authentication failed. Please login again."))) := by
  rcases h with h | h <;> subst h <;> exact ⟨rfl, rfl, rfl, rfl, rfl, rfl⟩

/-- C9 witness: at a concrete 403 response the legacy PACS list clears
the stale session while the legacy chat send preserves it, both
returning the authentication-failure error. -/
theorem C9_legacy_domain_logout_witness :
    LegacyApi.getConfigurations staleStore (.ok (HttpResponse.mk 403 ("x")))
        (fun _ => none)
      = (Store.mk none none,
         ConfigsRes.mk none (some ("Authentication failed. Please login again."))) ∧
    LegacyApi.sendMessage staleStore (.ok (HttpResponse.mk 403 ("x"))) (fun _ => none)
      = (staleStore, ChatRes.mk none (some ("Authentication failed. Please login again."))) :=
  ⟨(C9_legacy_domain_logout staleStore 403 ("x") (fun _ => none) (Or.inr rfl)).2.1,
   (C9_legacy_domain_logout staleStore 403 ("x") (fun _ => none) (Or.inr rfl)).2.2.2.2.2⟩
